import Mathlib

/-!
# Verification of the gRPC server lifecycle component (mlserver/grpc/server.py)

Shallow embedding of the `GRPCServer` class: its configuration input, the
transport-option builder `_get_options`, server construction `_create_server`,
and the `start` / `stop` lifecycle methods.  Side-effecting calls (servicer
construction, servicer registration, port binding, starting, logging,
stopping) are recorded as an explicit event trace; Python attribute accesses
that can fail (reading `self._server` before it was assigned) are modelled
with `Except`.
-/

namespace MLServer

/-- Modelled from the spec: the `Settings` class lives outside the provided
source tree; spec §3 (ServerConfiguration) gives its shape: host address
(string), RPC port (integer), optional maximum message length (integer or
absent).  `http_port` and `debug` stand for the remaining configuration
fields that this component never reads. -/
structure Settings where
  host : String
  grpc_port : Nat
  grpc_max_message_length : Option Int
  http_port : Nat
  debug : Bool
deriving Repr, DecidableEq

/-- `DefaultGrpcWorkers = 5`: workers used for non-AsyncIO workloads. -/
def DefaultGrpcWorkers : Nat := 5

/-- One observable action performed by the server component, in program
order: servicer construction, `aio.server(...)` construction (recording the
thread-pool size, interceptor list and transport options), servicer
registration, `add_insecure_port`, `server.start()`, `logger.info`,
`wait_for_termination()`, `server.stop(grace)`. -/
inductive Event where
  | createServicer (name : String)
  | createServer (maxWorkers : Nat) (interceptors : List String)
      (options : List (String × Int))
  | registerServicer (service : String)
  | bindInsecurePort (address : String)
  | serverStart
  | logInfo (msg : String)
  | waitForTermination
  | serverStop (grace : Int)
deriving Repr, DecidableEq

/-- The `grpc.aio` server handle as far as this component configures it. -/
structure ServerHandle where
  maxWorkers : Nat
  interceptors : List String
  options : List (String × Int)
  boundAddress : String
deriving Repr, DecidableEq

/-- A Python exception escaping one of the modelled methods. -/
inductive PyError where
  | attributeError (attr : String)
deriving Repr, DecidableEq

/-- The `GRPCServer` object: `__init__` stores the settings (and handler
references, which the modelled methods never consult beyond passing them to
the servicers); the `_server` attribute is absent (`none`) until
`_create_server` assigns it. -/
structure GRPCServer where
  _settings : Settings
  _server : Option ServerHandle
deriving Repr, DecidableEq

namespace GRPCServer

/-- `GRPCServer.__init__`: captures configuration, performs no I/O, and does
not create the `_server` attribute. -/
def init (s : Settings) : GRPCServer :=
  { _settings := s, _server := none }

/-- `GRPCServer._get_options`: starts from the empty list and, only when
`grpc_max_message_length` is not `None`, appends the three size options,
each carrying the configured value unchanged. -/
def _get_options (self : GRPCServer) : List (String × Int) :=
  match self._settings.grpc_max_message_length with
  | none => []
  | some max_message_length =>
      [] ++
      [(("grpc.max_message_length"), max_message_length),
       (("grpc.max_send_message_length"), max_message_length),
       (("grpc.max_receive_message_length"), max_message_length)]

/-- The address string `f"{self._settings.host}:{self._settings.grpc_port}"`
passed to `add_insecure_port`. -/
def bindAddress (s : Settings) : String :=
  s.host ++ (":") ++ toString s.grpc_port

/-- `GRPCServer._create_server`: builds the two servicers, constructs the
`aio.server` with a `ThreadPoolExecutor(max_workers=DefaultGrpcWorkers)`,
the single logging interceptor and the computed options, registers both
servicers, then binds the insecure port, assigning the handle to
`self._server`.  Returns the updated object and the event trace in program
order. -/
def _create_server (self : GRPCServer) : GRPCServer × List Event :=
  let opts := _get_options self
  let addr := bindAddress self._settings
  let srv : ServerHandle :=
    { maxWorkers := DefaultGrpcWorkers
      interceptors := [("LoggingInterceptor")]
      options := opts
      boundAddress := addr }
  ({ self with _server := some srv },
   [Event.createServicer ("InferenceServicer"),
    Event.createServicer ("ModelRepositoryServicer"),
    Event.createServer DefaultGrpcWorkers [("LoggingInterceptor")] opts,
    Event.registerServicer ("GRPCInferenceService"),
    Event.registerServicer ("ModelRepositoryService"),
    Event.bindInsecurePort addr])

/-- The message of the one `logger.info` call in `start`:
`"gRPC server running on " f"http://{host}:{grpc_port}"`. -/
def logMessage (s : Settings) : String :=
  ("gRPC server running on ") ++ ("http://") ++ s.host ++ (":") ++
    toString s.grpc_port

/-- `GRPCServer.start`: unconditionally calls `_create_server` (there is no
state guard), awaits `self._server.start()`, logs the listening message, and
awaits `wait_for_termination()`.  The only attribute it reads, `_server`,
was just assigned, so the method itself raises no exception. -/
def start (self : GRPCServer) : Except PyError (GRPCServer × List Event) :=
  let created := _create_server self
  match created.1._server with
  | none => Except.error (PyError.attributeError ("_server"))
  | some _ =>
      Except.ok (created.1,
        created.2 ++
          [Event.serverStart,
           Event.logInfo (logMessage created.1._settings),
           Event.waitForTermination])

/-- `GRPCServer.stop`: awaits `self._server.stop(grace=5)`.  Reading
`self._server` before any `start` call raises `AttributeError`; the grace
argument is the literal `5` (a TODO comment notes it is not read from
configuration). -/
def stop (self : GRPCServer) : Except PyError (GRPCServer × List Event) :=
  match self._server with
  | none => Except.error (PyError.attributeError ("_server"))
  | some _ => Except.ok (self, [Event.serverStop 5])

end GRPCServer

/-- Recognizer for servicer-registration events. -/
def isRegister : Event → Bool
  | Event.registerServicer _ => true
  | _ => false

/-- Recognizer for port-binding events. -/
def isBind : Event → Bool
  | Event.bindInsecurePort _ => true
  | _ => false

/-- Recognizer for server-construction events. -/
def isCreateServer : Event → Bool
  | Event.createServer .. => true
  | _ => false

/-- Recognizer for informational-log events. -/
def isLogInfo : Event → Bool
  | Event.logInfo _ => true
  | _ => false

/-- No registration event occurs at or after any binding event. -/
def regBeforeBind : List Event → Bool
  | [] => true
  | e :: rest =>
      (if isBind e then rest.all (fun f => !(isRegister f)) else true) &&
        regBeforeBind rest

/-- `pat` occurs as a contiguous substring of `s`. -/
def strContains (s pat : String) : Prop :=
  ∃ a b, s = a ++ pat ++ b

theorem string_append_assoc (a b c : String) :
    (a ++ b) ++ c = a ++ (b ++ c) := by
  apply congrArg String.mk
  simp [String.instAppend, String.append]

theorem string_append_empty (s : String) : s ++ ("") = s := by
  cases s with
  | mk data =>
      show String.mk (data ++ []) = String.mk data
      rw [List.append_nil]

/-- The scenario configuration from the spec:
`{host="0.0.0.0", port=8081, max_message_length=4194304}`. -/
def sampleSettings : Settings :=
  { host := ("0.0.0.0")
    grpc_port := 8081
    grpc_max_message_length := some 4194304
    http_port := 8080
    debug := false }

/-- The scenario configuration with `max_message_length=null`. -/
def sampleSettingsAbsent : Settings :=
  { sampleSettings with grpc_max_message_length := none }

/-- A configuration with a negative (out-of-range) maximum message length. -/
def sampleSettingsNeg : Settings :=
  { sampleSettings with grpc_max_message_length := some (-7) }

/-- A configuration agreeing with `sampleSettings` on
`grpc_max_message_length` only. -/
def sampleSettingsAlt : Settings :=
  { host := ("127.0.0.1")
    grpc_port := 9000
    grpc_max_message_length := some 4194304
    http_port := 1234
    debug := true }

/-- C1: with the maximum message length present with value N, `_get_options`
returns exactly the three entries `grpc.max_message_length`,
`grpc.max_send_message_length`, `grpc.max_receive_message_length`, each
paired with N, in that fixed order; with it absent, it returns the empty
list. -/
theorem C1_get_options_exact (self : GRPCServer) :
    (∀ n : Int, self._settings.grpc_max_message_length = some n →
      self._get_options =
        [(("grpc.max_message_length"), n),
         (("grpc.max_send_message_length"), n),
         (("grpc.max_receive_message_length"), n)]) ∧
    (self._settings.grpc_max_message_length = none →
      self._get_options = []) := by
  constructor
  · intro n h
    simp [GRPCServer._get_options, h]
  · intro h
    simp [GRPCServer._get_options, h]

/-- C1 witness: evaluated at the spec scenario configurations. -/
theorem C1_get_options_exact_witness :
    (GRPCServer.init sampleSettings)._get_options =
      [(("grpc.max_message_length"), (4194304 : Int)),
       (("grpc.max_send_message_length"), (4194304 : Int)),
       (("grpc.max_receive_message_length"), (4194304 : Int))] ∧
    (GRPCServer.init sampleSettingsAbsent)._get_options = [] :=
  ⟨(C1_get_options_exact (GRPCServer.init sampleSettings)).1 4194304 rfl,
   (C1_get_options_exact (GRPCServer.init sampleSettingsAbsent)).2 rfl⟩

/-- C5: for any present maximum-message-length value, including negative
integers, `_get_options` raises no validation failure (it is a total
function) and passes the value through unchanged into all three entries. -/
theorem C5_no_validation_passthrough (self : GRPCServer) (n : Int)
    (h : self._settings.grpc_max_message_length = some n) :
    self._get_options.length = 3 ∧
      ∀ p ∈ self._get_options, p.2 = n := by
  constructor
  · simp [GRPCServer._get_options, h]
  · intro p hp
    simp [GRPCServer._get_options, h] at hp
    rcases hp with h1 | h1 | h1 <;> simp [h1]

/-- C5 witness: evaluated at a configuration with a negative value. -/
theorem C5_no_validation_passthrough_witness :
    (GRPCServer.init sampleSettingsNeg)._get_options.length = 3 ∧
      ∀ p ∈ (GRPCServer.init sampleSettingsNeg)._get_options,
        p.2 = (-7 : Int) :=
  C5_no_validation_passthrough (GRPCServer.init sampleSettingsNeg) (-7) rfl

/-- C10: `_get_options` depends only on the maximum-message-length field:
any two server objects whose configurations agree on
`grpc_max_message_length` produce equal option lists. -/
theorem C10_options_noninterference (g1 g2 : GRPCServer)
    (h : g1._settings.grpc_max_message_length =
      g2._settings.grpc_max_message_length) :
    g1._get_options = g2._get_options := by
  unfold GRPCServer._get_options
  rw [h]

/-- C10 witness: two configurations differing in host, both ports and the
debug flag, agreeing only on the maximum message length. -/
theorem C10_options_noninterference_witness :
    (GRPCServer.init sampleSettings)._get_options =
      (GRPCServer.init sampleSettingsAlt)._get_options :=
  C10_options_noninterference (GRPCServer.init sampleSettings)
    (GRPCServer.init sampleSettingsAlt) rfl

/-- `start` always succeeds and its result is the state and trace produced by
`_create_server` followed by the start, log and termination-wait events:
the method body contains no state guard and no raise. -/
theorem start_eq (self : GRPCServer) :
    self.start = Except.ok ((self._create_server).1,
      (self._create_server).2 ++
        [Event.serverStart,
         Event.logInfo (GRPCServer.logMessage self._settings),
         Event.waitForTermination]) := rfl

/-- `stop` on an object whose `_server` attribute is set returns the
single stop event with grace 5. -/
theorem stop_eq_of_some (self : GRPCServer) (srv : ServerHandle)
    (h : self._server = some srv) :
    self.stop = Except.ok (self, [Event.serverStop 5]) := by
  unfold GRPCServer.stop
  rw [h]

/-- The server object after one `start` on the spec scenario configuration. -/
def sampleStarted : GRPCServer :=
  ((GRPCServer.init sampleSettings)._create_server).1

/-- C2 counterexample: on the spec scenario configuration, a second call to
`start()` does not fail: `start` contains no state check, so it returns
successfully (recreating and rebinding the server) instead of raising an
invalid-state error. -/
theorem C2_second_start_counterexample :
    ((GRPCServer.init sampleSettings).start.bind
      (fun r => r.1.start)).isOk = true := by
  rfl

/-- C2 amended: calling `stop()` before `start()` raises a fatal
`AttributeError` (the `_server` attribute is missing), but calling
`start()` a second time does not raise an invalid-state error: every call
to `start()` succeeds in this component, recreating the server. -/
theorem C2_amended_invalid_state (s : Settings) :
    (GRPCServer.init s).stop =
      Except.error (PyError.attributeError ("_server")) ∧
    (∀ r, (GRPCServer.init s).start = Except.ok r →
      (r.1.start).isOk = true) := by
  constructor
  · rfl
  · intro r _
    rw [start_eq]
    rfl

/-- C2 witness: the amended claim evaluated at the spec scenario
configuration, with the first start discharged concretely. -/
theorem C2_amended_invalid_state_witness :
    (GRPCServer.init sampleSettings).stop =
      Except.error (PyError.attributeError ("_server")) ∧
    ((sampleStarted,
      ((GRPCServer.init sampleSettings)._create_server).2 ++
        [Event.serverStart,
         Event.logInfo (GRPCServer.logMessage sampleSettings),
         Event.waitForTermination]) :
        GRPCServer × List Event).1.start.isOk = true :=
  ⟨(C2_amended_invalid_state sampleSettings).1,
   (C2_amended_invalid_state sampleSettings).2
     (sampleStarted,
      ((GRPCServer.init sampleSettings)._create_server).2 ++
        [Event.serverStart,
         Event.logInfo (GRPCServer.logMessage sampleSettings),
         Event.waitForTermination])
     (start_eq (GRPCServer.init sampleSettings))⟩

/-- C3 counterexample: on the spec scenario configuration, the second
`start()` call emits a fresh server-construction event — the server
instance is recreated by a second `start`, contrary to the claim. -/
theorem C3_recreate_counterexample :
    (((GRPCServer.init sampleSettings).start.bind (fun r => r.1.start)
        ).toOption.getD (GRPCServer.init sampleSettings, [])
      ).2.countP isCreateServer = 1 := by
  rfl

/-- C3 amended: the server instance is absent at construction, created
lazily by `start()` (exactly one construction per `start` call), and never
recreated by `stop()`; however every further `start()` call constructs a
fresh server instance. -/
theorem C3_amended_lifecycle (s : Settings) :
    (GRPCServer.init s)._server = none ∧
    (∀ st r, GRPCServer.start st = Except.ok r →
      r.1._server.isSome = true ∧ r.2.countP isCreateServer = 1) ∧
    (∀ st r, GRPCServer.stop st = Except.ok r → r.1._server = st._server) := by
  refine ⟨rfl, ?_, ?_⟩
  · intro st r h
    rw [start_eq] at h
    injection h with h2
    rw [← h2]
    exact ⟨rfl, rfl⟩
  · intro st r h
    unfold GRPCServer.stop at h
    cases hs : st._server with
    | none =>
        rw [hs] at h
        cases h
    | some srv =>
        rw [hs] at h
        injection h with h2
        rw [← h2]
        exact hs

/-- C3 witness: the amended claim evaluated on the spec scenario
configuration: a first start and a stop on the started object. -/
theorem C3_amended_lifecycle_witness :
    (GRPCServer.init sampleSettings)._server = none ∧
    (sampleStarted._server.isSome = true ∧
      (((GRPCServer.init sampleSettings)._create_server).2 ++
        [Event.serverStart,
         Event.logInfo (GRPCServer.logMessage sampleSettings),
         Event.waitForTermination]).countP isCreateServer = 1) ∧
    sampleStarted._server = sampleStarted._server :=
  ⟨(C3_amended_lifecycle sampleSettings).1,
   (C3_amended_lifecycle sampleSettings).2.1 (GRPCServer.init sampleSettings)
     (sampleStarted,
      ((GRPCServer.init sampleSettings)._create_server).2 ++
        [Event.serverStart,
         Event.logInfo (GRPCServer.logMessage sampleSettings),
         Event.waitForTermination])
     (start_eq (GRPCServer.init sampleSettings)),
   (C3_amended_lifecycle sampleSettings).2.2 sampleStarted
     (sampleStarted, [Event.serverStop 5]) rfl⟩

/-- C4: whenever `stop()` succeeds, it performs exactly one action: a
graceful-shutdown request on the underlying server with the fixed grace
argument 5, independent of the object's configuration. -/
theorem C4_stop_grace_five (st : GRPCServer) (r : GRPCServer × List Event)
    (h : st.stop = Except.ok r) : r.2 = [Event.serverStop 5] := by
  unfold GRPCServer.stop at h
  cases hs : st._server with
  | none =>
      rw [hs] at h
      cases h
  | some srv =>
      rw [hs] at h
      injection h with h2
      rw [← h2]

/-- C4 witness: `stop` on a started object built from the spec scenario
configuration. -/
theorem C4_stop_grace_five_witness :
    ((sampleStarted, [Event.serverStop 5]) : GRPCServer × List Event).2 =
      [Event.serverStop 5] :=
  C4_stop_grace_five sampleStarted (sampleStarted, [Event.serverStop 5]) rfl

/-- C6: in every execution of `_create_server`, both servicers are
registered (exactly two registration events), the address is bound exactly
once, and no registration occurs after a binding event: both registrations
strictly precede the bind. -/
theorem C6_register_before_bind (st : GRPCServer) :
    (st._create_server).2.countP isRegister = 2 ∧
    (st._create_server).2.countP isBind = 1 ∧
    regBeforeBind (st._create_server).2 = true :=
  ⟨rfl, rfl, rfl⟩

/-- C7: `start()` emits exactly one informational log event; it sits
immediately after the server-start event and immediately before the
termination wait, and its message contains the protocol scheme, the
configured host, and the configured port. -/
theorem C7_single_log_line (s : Settings) (r : GRPCServer × List Event)
    (h : (GRPCServer.init s).start = Except.ok r) :
    r.2.countP isLogInfo = 1 ∧
    r.2.drop 6 =
      [Event.serverStart,
       Event.logInfo (GRPCServer.logMessage s),
       Event.waitForTermination] ∧
    strContains (GRPCServer.logMessage s) ("http://") ∧
    strContains (GRPCServer.logMessage s) s.host ∧
    strContains (GRPCServer.logMessage s) (toString s.grpc_port) := by
  rw [start_eq] at h
  injection h with h2
  subst h2
  refine ⟨rfl, rfl, ?_, ?_, ?_⟩
  · exact ⟨("gRPC server running on "),
      s.host ++ (":") ++ toString s.grpc_port,
      by simp [GRPCServer.logMessage, string_append_assoc]⟩
  · exact ⟨("gRPC server running on ") ++ ("http://"),
      (":") ++ toString s.grpc_port,
      by simp [GRPCServer.logMessage, string_append_assoc]⟩
  · exact ⟨("gRPC server running on ") ++ ("http://") ++ s.host ++ (":"),
      (""),
      by simp [GRPCServer.logMessage, string_append_assoc,
        string_append_empty]⟩

/-- The full trace of one `start` on the spec scenario configuration. -/
def sampleStartTrace : List Event :=
  ((GRPCServer.init sampleSettings)._create_server).2 ++
    [Event.serverStart,
     Event.logInfo (GRPCServer.logMessage sampleSettings),
     Event.waitForTermination]

/-- C7 witness: evaluated on the spec scenario configuration. -/
theorem C7_single_log_line_witness :
    ((sampleStarted, sampleStartTrace) :
        GRPCServer × List Event).2.countP isLogInfo = 1 ∧
    ((sampleStarted, sampleStartTrace) :
        GRPCServer × List Event).2.drop 6 =
      [Event.serverStart,
       Event.logInfo (GRPCServer.logMessage sampleSettings),
       Event.waitForTermination] ∧
    strContains (GRPCServer.logMessage sampleSettings) ("http://") ∧
    strContains (GRPCServer.logMessage sampleSettings) sampleSettings.host ∧
    strContains (GRPCServer.logMessage sampleSettings)
      (toString sampleSettings.grpc_port) :=
  C7_single_log_line sampleSettings (sampleStarted, sampleStartTrace) rfl

/-- C8: `_create_server` binds, as its last action, the address string
formed verbatim from host and port, through the insecure (plaintext) bind
call; exactly one bind is performed and the handle records that address. -/
theorem C8_insecure_bind_verbatim (st : GRPCServer) :
    (st._create_server).2.getLast? =
      some (Event.bindInsecurePort
        (st._settings.host ++ (":") ++ toString st._settings.grpc_port)) ∧
    (st._create_server).2.countP isBind = 1 ∧
    ((st._create_server).1._server.map ServerHandle.boundAddress) =
      some (st._settings.host ++ (":") ++ toString st._settings.grpc_port) :=
  ⟨rfl, rfl, rfl⟩

/-- C9: the server is always constructed with a worker pool of the fixed,
non-configurable size `DefaultGrpcWorkers = 5`, whatever the settings. -/
theorem C9_fixed_worker_pool (st : GRPCServer) :
    DefaultGrpcWorkers = 5 ∧
    (st._create_server).2[2]? =
      some (Event.createServer 5 [("LoggingInterceptor")]
        st._get_options) ∧
    ((st._create_server).1._server.map ServerHandle.maxWorkers) = some 5 :=
  ⟨rfl, rfl, rfl⟩

end MLServer
